import Mathlib

/-!
Shallow embedding of the study/chat state machine of
`src/components/feynman.tsx` (the full FeynmanAI variant, the one with
study groups, a per-study message map and a per-study session-id map).

Each React event handler is translated into a pure state-transition
function on an explicit `AppState`.  React semantics are modelled
faithfully for the single-threaded, one-event-at-a-time execution:

* state variables read directly in a handler body are the *closure*
  values, i.e. the state at the moment the handler was dispatched;
* `setX(prev => ...)` functional updates apply to the accumulated state;
* `setX(value)` absolute updates overwrite with a value computed from
  closure state;
* the mutable ref `messageIdRef` is modelled as the `msgCounter` field
  (updated immediately, visible to later code in the same handler);
* `Date.now()` / `new Date()` are modelled by an explicit `now : Nat`
  parameter per handler invocation;
* the backend (`fetch`) is modelled by a `BackendResult` oracle passed
  to the handler; each handler also returns the list of HTTP chat
  requests it issued, so that request-counting properties are statable.

Presentation-only state (dark mode, sidebar, login modal, mounted flag)
is omitted: no claim mentions it and no handler modelled here reads it,
with the exception of `isConnected` which selects the sendMessage
fallback wording.
-/

/-- Role of a chat message: `type: 'user' | 'ai'` in the source. -/
inductive MessageType where
  | user
  | ai
deriving DecidableEq

/-- `interface Message` of the source; `timestamp : Date` becomes a Nat. -/
structure Message where
  id : String
  type : MessageType
  content : String
  timestamp : Nat
deriving DecidableEq

/-- `interface Study` of the source; `lastActive : Date` becomes a Nat,
`progress` / `questionsAnswered` / `difficulty` are JS numbers that only
ever hold small non-negative integers here, modelled as Nat. -/
structure Study where
  id : String
  title : String
  subject : String
  lastActive : Nat
  progress : Nat
  questionsAnswered : Nat
  difficulty : Nat
deriving DecidableEq

/-- `interface StudyGroup` of the source. -/
structure StudyGroup where
  id : String
  name : String
  icon : String
  color : String
  studies : List Study
deriving DecidableEq

/-- `interface User` of the source (avatar omitted: never read). -/
structure AppUser where
  id : String
  name : String
  email : String
deriving DecidableEq

/-- Body of `POST /chat`: `{message, session_id}` (session_id null ↦ none). -/
structure ChatRequest where
  message : String
  session_id : Option String
deriving DecidableEq

/-- Response body of `POST /chat`: `{response?, session_id?, phase?}`.
A field that is absent or JSON-null is `none`; note the source tests
these fields for JS truthiness, so `some ""` behaves like `none` there. -/
structure ChatResponse where
  response : Option String
  session_id : Option String
  phase : Option String
deriving DecidableEq

/-- Outcome of one backend exchange: either the parsed 2xx JSON body, or
a failure (network error or non-2xx status, both of which throw in
`sendMessageToBackend` and land in the caller's catch block). -/
inductive BackendResult where
  | ok (data : ChatResponse)
  | fail
deriving DecidableEq

/-- The component state relevant to the study/conversation logic. -/
structure AppState where
  user : Option AppUser
  studyGroups : List StudyGroup
  activeStudy : Option Study
  messages : List Message
  messagesMap : List (String × List Message)
  sessionIdMap : List (String × String)
  inputValue : String
  isConnected : Bool
  isLoading : Bool
  isInitializingStudy : Bool
  msgCounter : Nat
deriving DecidableEq

/-- JS object-spread key update `{...prev, [k]: v}`, observed through
`lookup`: the new binding shadows (and here erases) any previous one. -/
def setKey {α : Type} (m : List (String × α)) (k : String) (v : α) :
    List (String × α) :=
  (k, v) :: m.filter (fun p => !(p.1 == k))

/-- JS truthiness test for a stored session id: `!sessionIdMap[id]` is
true when the entry is absent or the empty string. -/
def falsyToken : Option String → Bool
  | none => true
  | some t => t == ""

/-- The guard `messagesMap[id]?.length === 0` of the source: true only
when the map *has* an entry for the id and that entry is the empty
list.  An absent entry gives `undefined === 0`, which is false in JS. -/
def isEmptyEntry : Option (List Message) → Bool
  | some [] => true
  | _ => false

/-- JS `String.prototype.toLowerCase` (kernel-reducible version of
`String.toLower`; the titles and keywords used here are ASCII). -/
def toLowerStr (s : String) : String := ⟨s.data.map Char.toLower⟩

/-- Helper for `strIncludes`: does `needle` occur in the tail list? -/
def includesAux (needle : List Char) : List Char → Bool
  | [] => needle.isEmpty
  | c :: cs => needle.isPrefixOf (c :: cs) || includesAux needle cs

/-- JS `String.prototype.includes`: substring containment. -/
def strIncludes (hay needle : String) : Bool := includesAux needle.data hay.data

/-- JS `String.prototype.trim`: strip whitespace from both ends. -/
def trimStr (s : String) : String :=
  ⟨((s.data.dropWhile Char.isWhitespace).reverse.dropWhile
      Char.isWhitespace).reverse⟩

/-- The `subjectKeywords` table of `determineSubject` (feynman.tsx
lines 532-539), in `Object.entries` order. -/
def subjectKeywords : List (String × List String) :=
  [("Physics", ["physics", "quantum", "mechanics", "thermodynamics", "energy", "force"]),
   ("Biology", ["biology", "cell", "dna", "evolution", "organism", "photosynthesis"]),
   ("Mathematics", ["math", "calculus", "algebra", "geometry", "statistics", "equation"]),
   ("Chemistry", ["chemistry", "molecule", "reaction", "element", "compound"]),
   ("Computer Science", ["programming", "algorithm", "data structure", "computer", "code"]),
   ("Economics", ["economics", "market", "supply", "demand", "finance", "trade"])]

/-- One entry of the loop body of `determineSubject`:
`keywords.some(keyword => topicLower.includes(keyword))`.  The source
lowers the topic once before the loop; lowering it per entry is the
same value. -/
def subjectMatches (topic : String) (entry : String × List String) : Bool :=
  entry.2.any (fun keyword => strIncludes (toLowerStr topic) keyword)

/-- `determineSubject` (feynman.tsx lines 531-550): first subject in
table order with a matching keyword, else "General". -/
def determineSubject (topic : String) : String :=
  match subjectKeywords.find? (subjectMatches topic) with
  | some entry => entry.1
  | none => "General"

/-- `getSubjectIcon` (feynman.tsx lines 552-563). -/
def getSubjectIcon (subject : String) : String :=
  (([("Physics", "⚛️"), ("Biology", "🧬"), ("Mathematics", "📐"),
     ("Chemistry", "🧪"), ("Computer Science", "💻"), ("Economics", "📊"),
     ("General", "📚")] : List (String × String)).lookup subject).getD "📚"

/-- `getSubjectColor` (feynman.tsx lines 565-576). -/
def getSubjectColor (subject : String) : String :=
  (([("Physics", "blue"), ("Biology", "green"), ("Mathematics", "purple"),
     ("Chemistry", "orange"), ("Computer Science", "indigo"),
     ("Economics", "red"), ("General", "gray")] :
      List (String × String)).lookup subject).getD "gray"

/-- `generateMessageId` (feynman.tsx lines 391-394): bump the ref
counter, produce `msg_{Date.now()}_{counter}`. -/
def generateMessageId (now : Nat) (counter : Nat) : String × Nat :=
  ("msg_" ++ toString now ++ "_" ++ toString (counter + 1), counter + 1)

/-- The `newStudy` record built by `startNewStudy` (feynman.tsx
lines 582-590): id is `Date.now().toString()`. -/
def mkStudy (topic : String) (now : Nat) : Study :=
  { id := toString now
    title := topic
    subject := determineSubject topic
    lastActive := now
    progress := 0
    questionsAnswered := 0
    difficulty := 1 }

/-- The new StudyGroup built by `startNewStudy` when the subject has no
group yet (feynman.tsx lines 602-608). -/
def mkGroup (st : Study) : StudyGroup :=
  { id := toLowerStr st.subject
    name := st.subject
    icon := getSubjectIcon st.subject
    color := getSubjectColor st.subject
    studies := [st] }

/-- Helper for `insertStudy`: prepend the study into the first group
whose `name` equals the study's subject (this is the
`findIndex` + `unshift` of the source), or `none` if no group matches. -/
def addToGroup (st : Study) : List StudyGroup → Option (List StudyGroup)
  | [] => none
  | g :: gs =>
    if g.name == st.subject then
      some ({ g with studies := st :: g.studies } :: gs)
    else
      (addToGroup st gs).map (fun gs2 => g :: gs2)

/-- The `setStudyGroups` updater of `startNewStudy` (feynman.tsx
lines 593-611): prepend into the first group with matching name, else
prepend a brand-new group to the front of the group list. -/
def insertStudy (st : Study) (gs : List StudyGroup) : List StudyGroup :=
  match addToGroup st gs with
  | some gs2 => gs2
  | none => mkGroup st :: gs

/-- `sendMessageToBackend` (feynman.tsx lines 428-479).

`closureActive` / `closureSessions` are the values of `activeStudy` and
`sessionIdMap` captured by the closure of the *render in which the
calling handler was created*: when `startNewStudy` or
`continueStudySession` call this function after `setActiveStudy(...)`,
the closure still holds the previous active study, so a backend-issued
session id is recorded under that previous study's key (or not at all
when there was no active study).  `sendMessage` calls it in a fresh
event, where the closure active study is the current one.

Returns the accumulated state, the issued `POST /chat` request, and
`some data` for a 2xx response / `none` when the call threw. -/
def sendMessageToBackend (msg : String) (forceNewSession : Bool)
    (closureActive : Option Study) (closureSessions : List (String × String))
    (br : BackendResult) (s : AppState) :
    AppState × ChatRequest × Option ChatResponse :=
  let sessionIdToUse : Option String :=
    match closureActive with
    | none => none
    | some st =>
      if forceNewSession then none
      else
        match closureSessions.lookup st.id with
        | none => none
        | some t => if t == "" then none else some t
  let req : ChatRequest := { message := msg, session_id := sessionIdToUse }
  match br with
  | .fail => ({ s with isLoading := false }, req, none)
  | .ok data =>
    let s1 :=
      match data.session_id, closureActive with
      | some sid, some st =>
        if sid == "" then s
        else { s with sessionIdMap := setKey s.sessionIdMap st.id sid }
      | _, _ => s
    ({ s1 with isLoading := false }, req, some data)

/-- Response handling of `startNewStudy` after the `await` (feynman.tsx
lines 629-660): on a truthy reply set the message list to the single AI
message and cache it under the new study's id; on an exchange failure do
the same with the deterministic fallback message; otherwise no further
change. -/
def startNewStudyFinish (topic : String) (now : Nat) (newStudy : Study)
    (s4 : AppState) (answer : Option ChatResponse) : AppState :=
  match answer with
  | some data =>
    match data.response with
    | some text =>
      if text == "" then s4
      else
        let (mid, c) := generateMessageId now s4.msgCounter
        let aiMessage : Message :=
          { id := mid, type := .ai, content := text, timestamp := now }
        { s4 with messages := [aiMessage]
                  messagesMap := setKey s4.messagesMap newStudy.id [aiMessage]
                  msgCounter := c }
    | none => s4
  | none =>
    let (mid, c) := generateMessageId now s4.msgCounter
    let fallbackMessage : Message :=
      { id := mid, type := .ai
        content := "Great! Let's start learning about \"" ++ topic ++
          "\". I'll use the Feynman Technique to help you master this concept. Can you begin by explaining what you already know about this topic in simple terms?"
        timestamp := now }
    { s4 with messages := [fallbackMessage]
              messagesMap := setKey s4.messagesMap newStudy.id [fallbackMessage]
              msgCounter := c }

/-- `startNewStudy` (feynman.tsx lines 578-661).  Returns the new state
and the chat requests issued (empty when not logged in).  The response
handling after the `await` is `startNewStudyFinish`. -/
def startNewStudy (topic : String) (now : Nat) (br : BackendResult)
    (s : AppState) : AppState × List ChatRequest :=
  match s.user with
  | none => (s, [])
  | some _ =>
    let newStudy := mkStudy topic now
    let s1 := { s with studyGroups := insertStudy newStudy s.studyGroups }
    let s2 :=
      match s.activeStudy with
      | some a => { s1 with messagesMap := setKey s1.messagesMap a.id s.messages }
      | none => s1
    let s3 := { s2 with activeStudy := some newStudy, messages := [] }
    let p :=
      sendMessageToBackend ("I want to learn about " ++ topic) true
        s.activeStudy s.sessionIdMap br s3
    (startNewStudyFinish topic now newStudy p.1 p.2.2, [p.2.1])

/-- Response handling of `continueStudySession` after the `await`
(feynman.tsx lines 693-710): on a truthy reply set the message list to
the single AI message and cache it under the study's id; in every case
the `finally` clears `isInitializingStudy` (it was set on entry, so it
is `false` again in the final state). -/
def continueStudySessionFinish (study : Study) (now : Nat) (s4 : AppState)
    (answer : Option ChatResponse) : AppState :=
  match answer with
  | some data =>
    match data.response with
    | some text =>
      if text == "" then { s4 with isInitializingStudy := false }
      else
        let (mid, c) := generateMessageId now s4.msgCounter
        let aiMessage : Message :=
          { id := mid, type := .ai, content := text, timestamp := now }
        { s4 with messages := [aiMessage]
                  messagesMap := setKey s4.messagesMap study.id [aiMessage]
                  msgCounter := c
                  isInitializingStudy := false }
    | none => { s4 with isInitializingStudy := false }
  | none => { s4 with isInitializingStudy := false }

/-- `continueStudySession` (feynman.tsx lines 687-712).  `s0` is the
closure state of the render that created it (the state at dispatch of
the enclosing `switchToStudy`), `s` the accumulated state.  The guard
re-checks the same closure values `switchToStudy` already checked. -/
def continueStudySession (study : Study) (now : Nat) (br : BackendResult)
    (s0 : AppState) (s : AppState) : AppState × List ChatRequest :=
  if falsyToken (s0.sessionIdMap.lookup study.id) &&
      isEmptyEntry (s0.messagesMap.lookup study.id) then
    let p :=
      sendMessageToBackend ("I want to continue learning about " ++ study.title)
        true s0.activeStudy s0.sessionIdMap br s
    (continueStudySessionFinish study now p.1 p.2.2, [p.2.1])
  else (s, [])

/-- `switchToStudy` (feynman.tsx lines 663-685).  Flushes the active
study's messages into the map, activates the target, loads the target's
cached messages *from the closure map* (the flush above is a functional
update the closure does not see), and conditionally hands over to
`continueStudySession`. -/
def switchToStudy (study : Study) (now : Nat) (br : BackendResult)
    (s : AppState) : AppState × List ChatRequest :=
  let s1 :=
    match s.activeStudy with
    | some a => { s with messagesMap := setKey s.messagesMap a.id s.messages }
    | none => s
  let s2 := { s1 with activeStudy := some study
                      messages := (s.messagesMap.lookup study.id).getD [] }
  if falsyToken (s.sessionIdMap.lookup study.id) &&
      isEmptyEntry (s.messagesMap.lookup study.id) then
    continueStudySession study now br s s2
  else (s2, [])

/-- The optimistic part of `sendMessage` before the backend exchange
(feynman.tsx lines 717-738): append the user message, mirror it into the
message map, clear the input. -/
def sendMessageOptimistic (now : Nat) (active : Study) (s : AppState) :
    AppState :=
  let (uid, c1) := generateMessageId now s.msgCounter
  let userMessage : Message :=
    { id := uid, type := .user, content := s.inputValue, timestamp := now }
  let msgs1 := s.messages ++ [userMessage]
  { s with messages := msgs1
           messagesMap := setKey s.messagesMap active.id msgs1
           msgCounter := c1
           inputValue := "" }

/-- Response handling of `sendMessage` after the `await` (feynman.tsx
lines 744-812).  `active` and `connected` are the closure values of
`activeStudy` and `isConnected` at dispatch.  On a truthy reply append
the AI message, and if the response carries a truthy phase, update the
active study (questionsAnswered+1, lastActive, progress +10 capped at
100 only for phase 'feynman_tutoring') and replace every study with the
active id inside every group by the updated record.  On failure append
the reachability-dependent fallback message. -/
def sendMessageFinish (now : Nat) (active : Study) (connected : Bool)
    (s2 : AppState) (answer : Option ChatResponse) : AppState :=
  match answer with
  | none =>
    let (fid, c2) := generateMessageId now s2.msgCounter
    let fallbackMessage : Message :=
      { id := fid, type := .ai
        content :=
          if connected then
            "I'm having trouble processing your response right now. Please try again in a moment."
          else
            "I'm currently offline. Your message has been saved and I'll respond when the connection is restored."
        timestamp := now }
    let msgs2 := s2.messages ++ [fallbackMessage]
    { s2 with messages := msgs2
              messagesMap := setKey s2.messagesMap active.id msgs2
              msgCounter := c2 }
  | some data =>
    match data.response with
    | none => s2
    | some text =>
      if text == "" then s2
      else
        let (aid, c2) := generateMessageId now s2.msgCounter
        let aiMessage : Message :=
          { id := aid, type := .ai, content := text, timestamp := now }
        let msgs2 := s2.messages ++ [aiMessage]
        let s3 := { s2 with messages := msgs2
                            messagesMap := setKey s2.messagesMap active.id msgs2
                            msgCounter := c2 }
        match data.phase with
        | none => s3
        | some ph =>
          if ph == "" then s3
          else
            let updatedStudy : Study :=
              { active with
                lastActive := now
                questionsAnswered := active.questionsAnswered + 1
                progress :=
                  if ph == "feynman_tutoring" then
                    min (active.progress + 10) 100
                  else active.progress }
            { s3 with
              activeStudy := some updatedStudy
              studyGroups := s3.studyGroups.map (fun g =>
                { g with studies := g.studies.map (fun st =>
                    if st.id == active.id then updatedStudy else st) }) }

/-- `sendMessage` (feynman.tsx lines 714-813): no-op on blank input or
no active study; otherwise optimistic append, one backend exchange,
then `sendMessageFinish`. -/
def sendMessage (now : Nat) (br : BackendResult) (s : AppState) :
    AppState × List ChatRequest :=
  if trimStr s.inputValue == "" then (s, [])
  else
    match s.activeStudy with
    | none => (s, [])
    | some active =>
      let p := sendMessageToBackend s.inputValue false s.activeStudy
        s.sessionIdMap br (sendMessageOptimistic now active s)
      (sendMessageFinish now active s.isConnected p.1 p.2.2, [p.2.1])

/-- Synchronous prefix of `continueStudySession` up to the `await` of
the backend exchange (feynman.tsx lines 689-692): the guard check, the
`setIsInitializingStudy(true)`, the `setIsLoading(true)` at the top of
`sendMessageToBackend`, and the issuance of the `fetch` request.  The
response handling after the `await` is not part of this prefix. -/
def continueStudySessionStart (study : Study) (s0 : AppState)
    (s : AppState) : AppState × List ChatRequest :=
  if falsyToken (s0.sessionIdMap.lookup study.id) &&
      isEmptyEntry (s0.messagesMap.lookup study.id) then
    ({ s with isInitializingStudy := true, isLoading := true },
     [{ message := "I want to continue learning about " ++ study.title
        session_id := none }])
  else (s, [])

/-- Synchronous prefix of `switchToStudy` (feynman.tsx lines 663-685):
everything it does is synchronous except the backend exchange inside
`continueStudySession`, so this is `switchToStudy` with
`continueStudySessionStart` in place of `continueStudySession`.  The
sidebar study entries invoke this directly on click
(feynman.tsx line 1014) with no `isLoading`/`isInitializingStudy`
guard. -/
def switchToStudyStart (study : Study) (s : AppState) :
    AppState × List ChatRequest :=
  let s1 :=
    match s.activeStudy with
    | some a => { s with messagesMap := setKey s.messagesMap a.id s.messages }
    | none => s
  let s2 := { s1 with activeStudy := some study
                      messages := (s.messagesMap.lookup study.id).getD [] }
  if falsyToken (s.sessionIdMap.lookup study.id) &&
      isEmptyEntry (s.messagesMap.lookup study.id) then
    continueStudySessionStart study s s2
  else (s2, [])

/-- A concrete logged-out state. -/
def loggedOutState : AppState :=
  { user := none, studyGroups := [], activeStudy := none, messages := [],
    messagesMap := [], sessionIdMap := [], inputValue := "hello",
    isConnected := true, isLoading := false, isInitializingStudy := false,
    msgCounter := 0 }

/-- A concrete logged-in user for the witnesses. -/
def demoUser : AppUser := { id := "1", name := "Ada", email := "ada@example.com" }

/-- A concrete active study for the witnesses. -/
def demoStudy : Study :=
  { id := "100", title := "Quantum Physics", subject := "Physics",
    lastActive := 100, progress := 20, questionsAnswered := 2, difficulty := 1 }

/-- The Physics group holding `demoStudy`. -/
def demoGroup : StudyGroup :=
  { id := "physics", name := "Physics", icon := getSubjectIcon "Physics",
    color := getSubjectColor "Physics", studies := [demoStudy] }

/-- A concrete logged-in state with `demoStudy` active and one cached
AI message, used by the witnesses. -/
def demoState : AppState :=
  { user := some demoUser, studyGroups := [demoGroup],
    activeStudy := some demoStudy,
    messages := [{ id := "msg_100_1", type := .ai, content := "Welcome",
                   timestamp := 100 }],
    messagesMap := [("100", [{ id := "msg_100_1", type := .ai,
                               content := "Welcome", timestamp := 100 }])],
    sessionIdMap := [], inputValue := "I think energy is quantized",
    isConnected := true, isLoading := false, isInitializingStudy := false,
    msgCounter := 1 }

/-- A study as left behind by a start whose backend returned an empty
JSON object: active, no cached message entry, no session token. -/
def ghostStudy : Study :=
  { id := "500", title := "Thermodynamics", subject := "Physics",
    lastActive := 500, progress := 0, questionsAnswered := 0, difficulty := 1 }

/-- State in which `ghostStudy` is active with no messages-map entry and
no session token. -/
def ghostState : AppState :=
  { user := some demoUser,
    studyGroups := [{ id := "physics", name := "Physics",
                      icon := getSubjectIcon "Physics",
                      color := getSubjectColor "Physics",
                      studies := [ghostStudy] }],
    activeStudy := some ghostStudy, messages := [], messagesMap := [],
    sessionIdMap := [], inputValue := "", isConnected := true,
    isLoading := false, isInitializingStudy := false, msgCounter := 0 }

/-- Same state but with an (empty) cached entry for `ghostStudy`, as the
flush on a switch would create. -/
def emptyCacheState : AppState :=
  { ghostState with messagesMap := [("500", [])] }

/-- A study in the directory whose cached entry is the empty list and
which has no session token: clicking it triggers initialization. -/
def pendingStudy : Study :=
  { id := "600", title := "Markets", subject := "Economics",
    lastActive := 600, progress := 0, questionsAnswered := 0, difficulty := 1 }

/-- State with `pendingStudy` listed, cached as empty, tokenless, and no
exchange in flight yet. -/
def pendingState : AppState :=
  { user := some demoUser,
    studyGroups := [{ id := "economics", name := "Economics",
                      icon := getSubjectIcon "Economics",
                      color := getSubjectColor "Economics",
                      studies := [pendingStudy] }],
    activeStudy := none, messages := [], messagesMap := [("600", [])],
    sessionIdMap := [], inputValue := "", isConnected := true,
    isLoading := false, isInitializingStudy := false, msgCounter := 0 }

/-- Study "A" of the C1 counterexample: active with the empty message
list and no token. -/
def studyA1 : Study :=
  { id := "1", title := "Energy", subject := "Physics",
    lastActive := 1, progress := 0, questionsAnswered := 0, difficulty := 1 }

/-- Study "B" of the C1 counterexample: cached with one message. -/
def studyB1 : Study :=
  { id := "2", title := "Cells", subject := "Biology",
    lastActive := 2, progress := 0, questionsAnswered := 0, difficulty := 1 }

/-- State for the C1 counterexample: A active with messages = [] and no
cached entry yet; B cached with a non-empty list. -/
def roundTripState : AppState :=
  { user := some demoUser,
    studyGroups := [{ id := "physics", name := "Physics",
                      icon := getSubjectIcon "Physics",
                      color := getSubjectColor "Physics",
                      studies := [studyA1] },
                    { id := "biology", name := "Biology",
                      icon := getSubjectIcon "Biology",
                      color := getSubjectColor "Biology",
                      studies := [studyB1] }],
    activeStudy := some studyA1, messages := [],
    messagesMap := [("2", [{ id := "msg_1_1", type := .ai, content := "Hi",
                             timestamp := 1 }])],
    sessionIdMap := [], inputValue := "", isConnected := true,
    isLoading := false, isInitializingStudy := false, msgCounter := 1 }

/-- The elements of a list that appear for the first time, in order of
first appearance. -/
def firstOccs : List String → List String
  | [] => []
  | x :: xs => x :: (firstOccs xs).filter (fun y => !(y == x))

/-- The grouping invariant maintained by `insertStudy`: the group names
are the reversed order of first appearance of the created studies'
subjects, and each group's study list is the reversed subsequence of the
created studies carrying its subject (newest first). -/
def GroupsInv (created : List Study) (gs : List StudyGroup) : Prop :=
  gs.map (fun g => g.name) =
    (firstOccs (created.map (fun st => st.subject))).reverse ∧
  ∀ g ∈ gs, g.studies =
    (created.filter (fun st => st.subject == g.name)).reverse

/-- Fold of the `setStudyGroups` updater of startNewStudy over a
creation sequence, starting from the empty directory. -/
def buildGroups (sts : List Study) : List StudyGroup :=
  sts.foldl (fun gs st => insertStudy st gs) []

/-- One `startNewStudy` invocation: the typed topic, the clock value and
the backend outcome of its initial exchange. -/
structure StartCall where
  topic : String
  now : Nat
  br : BackendResult

/-- A sequence of `startNewStudy` invocations, run left to right. -/
def runStarts (calls : List StartCall) (s : AppState) : AppState :=
  calls.foldl (fun t c => (startNewStudy c.topic c.now c.br t).1) s

/-- A logged-in state with an empty study directory. -/
def freshState : AppState := { loggedOutState with user := some demoUser }

theorem lookup_filterOut {α : Type} (m : List (String × α)) (k k' : String)
    (h : k' ≠ k) :
    (m.filter (fun p => !(p.1 == k))).lookup k' = m.lookup k' := by
  induction m with
  | nil => rfl
  | cons p m ih =>
    by_cases hp : p.1 = k
    · have h1 : (p.1 == k) = true := beq_iff_eq.mpr hp
      have h2 : (k' == p.1) = false := by
        refine beq_eq_false_iff_ne.mpr ?_
        rw [hp]; exact h
      simp [List.filter, h1, List.lookup, h2, ih]
    · have h1 : (p.1 == k) = false := beq_eq_false_iff_ne.mpr hp
      simp only [List.filter, h1, Bool.not_false]
      cases hpk : (k' == p.1) with
      | true => simp [List.lookup, hpk]
      | false => simp [List.lookup, hpk, ih]

theorem lookup_setKey_self {α : Type} (m : List (String × α)) (k : String)
    (v : α) : (setKey m k v).lookup k = some v := by
  simp [setKey, List.lookup]

theorem lookup_setKey_ne {α : Type} (m : List (String × α)) (k k' : String)
    (v : α) (h : k' ≠ k) : (setKey m k v).lookup k' = m.lookup k' := by
  have h1 : (k' == k) = false := beq_eq_false_iff_ne.mpr h
  simp only [setKey, List.lookup, h1]
  exact lookup_filterOut m k k' h

theorem sendMessageToBackend_fail_eq (msg : String) (fN : Bool)
    (ca : Option Study) (cs : List (String × String)) (s : AppState) :
    (sendMessageToBackend msg fN ca cs .fail s).1 = { s with isLoading := false } := by
  rfl

theorem sendMessageToBackend_frame (msg : String) (fN : Bool)
    (ca : Option Study) (cs : List (String × String)) (br : BackendResult)
    (s : AppState) :
    (sendMessageToBackend msg fN ca cs br s).1.user = s.user ∧
    (sendMessageToBackend msg fN ca cs br s).1.studyGroups = s.studyGroups ∧
    (sendMessageToBackend msg fN ca cs br s).1.activeStudy = s.activeStudy ∧
    (sendMessageToBackend msg fN ca cs br s).1.messages = s.messages ∧
    (sendMessageToBackend msg fN ca cs br s).1.messagesMap = s.messagesMap ∧
    (sendMessageToBackend msg fN ca cs br s).1.inputValue = s.inputValue ∧
    (sendMessageToBackend msg fN ca cs br s).1.isConnected = s.isConnected ∧
    (sendMessageToBackend msg fN ca cs br s).1.msgCounter = s.msgCounter ∧
    (sendMessageToBackend msg fN ca cs br s).1.isInitializingStudy = s.isInitializingStudy := by
  unfold sendMessageToBackend
  cases br with
  | fail => simp
  | ok data =>
    obtain ⟨resp, sid, ph⟩ := data
    cases sid <;> cases ca <;> simp <;> split <;> simp

theorem sendMessageToBackend_ok_answer (msg : String) (fN : Bool)
    (ca : Option Study) (cs : List (String × String)) (data : ChatResponse)
    (s : AppState) :
    (sendMessageToBackend msg fN ca cs (.ok data) s).2.2 = some data := by
  unfold sendMessageToBackend
  obtain ⟨resp, sid, ph⟩ := data
  cases sid <;> cases ca <;> simp <;> split <;> simp

theorem sendMessageToBackend_req_forceNew (msg : String) (ca : Option Study)
    (cs : List (String × String)) (br : BackendResult) (s : AppState) :
    (sendMessageToBackend msg true ca cs br s).2.1 =
      { message := msg, session_id := none } := by
  unfold sendMessageToBackend
  cases br with
  | fail => cases ca <;> simp
  | ok data =>
    obtain ⟨resp, sid, ph⟩ := data
    cases sid <;> cases ca <;> simp <;> split <;> simp

theorem sendMessageToBackend_sessions_other (msg : String) (fN : Bool)
    (ca : Option Study) (cs : List (String × String)) (br : BackendResult)
    (s : AppState) (x : String) (hx : ∀ st, ca = some st → x ≠ st.id) :
    (sendMessageToBackend msg fN ca cs br s).1.sessionIdMap.lookup x =
      s.sessionIdMap.lookup x := by
  unfold sendMessageToBackend
  cases br with
  | fail => simp
  | ok data =>
    obtain ⟨resp, sid, ph⟩ := data
    cases sid with
    | none => cases ca <;> simp
    | some sid =>
      cases ca with
      | none => simp
      | some st =>
        have hxs : x ≠ st.id := hx st rfl
        by_cases hsid : sid = ""
        · simp [hsid]
        · simp [hsid, lookup_setKey_ne _ _ _ _ hxs]

theorem find?_eq_of_unique {α : Type} (p : α → Bool) (l : List α) (a : α)
    (ha : a ∈ l) (hpa : p a = true)
    (hq : ∀ b ∈ l, b ≠ a → p b = false) : l.find? p = some a := by
  induction l with
  | nil => cases ha
  | cons x xs ih =>
    by_cases hx : p x = true
    · have hxa : x = a := by
        by_contra hne
        rw [hq x (List.mem_cons_self x xs) hne] at hx
        cases hx
      rw [List.find?_cons_of_pos _ hx, hxa]
    · have hax : a ∈ xs := by
        cases List.mem_cons.mp ha with
        | inl h => rw [h] at hpa; exact absurd hpa hx
        | inr h => exact h
      rw [List.find?_cons_of_neg _ hx]
      exact ih hax (fun b hb => hq b (List.mem_cons_of_mem x hb))

theorem find?_first {α : Type} (p : α → Bool) (l₁ l₂ : List α) (a : α)
    (h₁ : ∀ b ∈ l₁, p b = false) (hpa : p a = true) :
    (l₁ ++ a :: l₂).find? p = some a := by
  induction l₁ with
  | nil => simpa using List.find?_cons_of_pos _ hpa
  | cons x xs ih =>
    have hxf : ¬ p x = true := by
      rw [h₁ x (List.mem_cons_self x xs)]; exact Bool.false_ne_true
    rw [List.cons_append, List.find?_cons_of_neg _ hxf]
    exact ih (fun b hb => h₁ b (List.mem_cons_of_mem x hb))

/-- Claim C5: `determineSubject` is a pure total function on topic
titles: it lowercases the title and returns the first subject, in the
fixed table order Physics, Biology, Mathematics, Chemistry, Computer
Science, Economics, whose keyword set contains a substring of the
lowered title; for a title matching exactly one subject's keyword set it
returns that subject, and for a title matching no keyword it returns
"General". -/
theorem C5_determineSubject_classifies (topic : String) :
    ((∀ entry ∈ subjectKeywords, subjectMatches topic entry = false) →
      determineSubject topic = "General") ∧
    (∀ front rest entry, subjectKeywords = front ++ entry :: rest →
      (∀ other ∈ front, subjectMatches topic other = false) →
      subjectMatches topic entry = true →
      determineSubject topic = entry.1) ∧
    (∀ entry ∈ subjectKeywords, subjectMatches topic entry = true →
      (∀ other ∈ subjectKeywords, other ≠ entry →
        subjectMatches topic other = false) →
      determineSubject topic = entry.1) := by
  refine ⟨fun h => ?_, fun front rest entry heq hfront hpe => ?_,
    fun entry hmem hpe huniq => ?_⟩
  · unfold determineSubject
    rw [List.find?_eq_none.mpr (fun x hx => by simp [h x hx])]
  · unfold determineSubject
    rw [heq, find?_first _ front rest entry hfront hpe]
  · unfold determineSubject
    rw [find?_eq_of_unique _ _ entry hmem hpe huniq]

/-- Witness for C5 at the concrete title "Quantum Physics": exactly the
Physics row matches, and determineSubject returns "Physics"; also a
no-match title "knitting" yields "General". -/
theorem C5_witness :
    determineSubject "Quantum Physics" = "Physics" ∧
    determineSubject "knitting" = "General" := by
  constructor
  · exact (C5_determineSubject_classifies "Quantum Physics").2.2
      ("Physics", ["physics", "quantum", "mechanics", "thermodynamics", "energy", "force"])
      (by decide) (by decide) (by decide)
  · exact (C5_determineSubject_classifies "knitting").1 (by decide)

/-- Claim C10: with no authenticated user, startNewStudy is a complete
no-op: the state (study groups, active study, messages, messages map,
session-token map, everything) is unchanged and no backend request is
issued. -/
theorem C10_startNewStudy_noop (topic : String) (now : Nat)
    (br : BackendResult) (s : AppState) (h : s.user = none) :
    startNewStudy topic now br s = (s, []) := by
  unfold startNewStudy
  rw [h]

/-- Witness for C10: concrete evaluation at a logged-out state. -/
theorem C10_witness :
    loggedOutState.user = none ∧
    startNewStudy "Physics" 7 .fail loggedOutState = (loggedOutState, []) :=
  ⟨rfl, C10_startNewStudy_noop "Physics" 7 .fail loggedOutState rfl⟩

/-- Claim C3: for an active study and non-empty input, when the backend
exchange of sendMessage fails, exactly one fallback AI message is
appended after the optimistic user message (message count +2, the user
message is not rolled back), exactly one request was issued, and the
fallback wording is selected by the last known reachability flag:
one fixed text when `isConnected` ("reachable but erroring"), a distinct
fixed text when not ("believed offline"). -/
theorem C3_sendMessage_failure_fallback (now : Nat) (s : AppState)
    (active : Study) (hA : s.activeStudy = some active)
    (hin : trimStr s.inputValue ≠ "") :
    ∃ userMsg fallbackMsg : Message,
      (sendMessage now .fail s).1.messages = s.messages ++ [userMsg, fallbackMsg] ∧
      (sendMessage now .fail s).1.messages.length = s.messages.length + 2 ∧
      userMsg.type = .user ∧ userMsg.content = s.inputValue ∧
      fallbackMsg.type = .ai ∧
      fallbackMsg.content = (if s.isConnected then
          "I'm having trouble processing your response right now. Please try again in a moment."
        else
          "I'm currently offline. Your message has been saved and I'll respond when the connection is restored.") ∧
      (sendMessage now .fail s).2.length = 1 := by
  have hb : (trimStr s.inputValue == "") = false := beq_eq_false_iff_ne.mpr hin
  refine ⟨{ id := (generateMessageId now s.msgCounter).1, type := .user,
            content := s.inputValue, timestamp := now },
          { id := (generateMessageId now (s.msgCounter + 1)).1, type := .ai,
            content := if s.isConnected then
                "I'm having trouble processing your response right now. Please try again in a moment."
              else
                "I'm currently offline. Your message has been saved and I'll respond when the connection is restored.",
            timestamp := now }, ?_, ?_, rfl, rfl, rfl, rfl, ?_⟩ <;>
    simp [sendMessage, hb, hA, sendMessageToBackend, sendMessageFinish,
      sendMessageOptimistic, generateMessageId]

theorem sendMessage_active_eq (now : Nat) (br : BackendResult) (s : AppState)
    (active : Study) (hA : s.activeStudy = some active)
    (hin : (trimStr s.inputValue == "") = false) :
    sendMessage now br s =
      (sendMessageFinish now active s.isConnected
        (sendMessageToBackend s.inputValue false s.activeStudy s.sessionIdMap br
          (sendMessageOptimistic now active s)).1
        (sendMessageToBackend s.inputValue false s.activeStudy s.sessionIdMap br
          (sendMessageOptimistic now active s)).2.2,
       [(sendMessageToBackend s.inputValue false s.activeStudy s.sessionIdMap br
          (sendMessageOptimistic now active s)).2.1]) := by
  simp [sendMessage, hin, hA]

/-- Claim C9: a successful sendMessage exchange whose response carries no
phase field leaves the active study record, the study groups, and every
other study's cached messages and session token untouched; the only
conversation-state change is the appended user and AI message pair (plus
a possible backend-issued token for the active study itself). -/
theorem C9_sendMessage_no_phase_frame (now : Nat) (s : AppState)
    (active : Study) (data : ChatResponse) (resp : String)
    (hA : s.activeStudy = some active) (hin : trimStr s.inputValue ≠ "")
    (hresp : data.response = some resp) (hne : resp ≠ "")
    (hph : data.phase = none) :
    (sendMessage now (.ok data) s).1.activeStudy = s.activeStudy ∧
    (sendMessage now (.ok data) s).1.studyGroups = s.studyGroups ∧
    (∃ userMsg aiMsg : Message,
      (sendMessage now (.ok data) s).1.messages = s.messages ++ [userMsg, aiMsg] ∧
      userMsg.type = .user ∧ userMsg.content = s.inputValue ∧
      aiMsg.type = .ai ∧ aiMsg.content = resp) ∧
    (∀ k, k ≠ active.id →
      (sendMessage now (.ok data) s).1.messagesMap.lookup k =
        s.messagesMap.lookup k) ∧
    (∀ k, k ≠ active.id →
      (sendMessage now (.ok data) s).1.sessionIdMap.lookup k =
        s.sessionIdMap.lookup k) := by
  have hb : (trimStr s.inputValue == "") = false := beq_eq_false_iff_ne.mpr hin
  have hrne : (resp == "") = false := beq_eq_false_iff_ne.mpr hne
  rw [sendMessage_active_eq now _ s active hA hb]
  have hans := sendMessageToBackend_ok_answer s.inputValue false s.activeStudy
    s.sessionIdMap data (sendMessageOptimistic now active s)
  have hframe := sendMessageToBackend_frame s.inputValue false s.activeStudy
    s.sessionIdMap (.ok data) (sendMessageOptimistic now active s)
  obtain ⟨hfu, hfg, hfa, hfm, hfmm, hfi, hfc, hfcnt, hfinit⟩ := hframe
  rw [hans]
  simp only [sendMessageFinish, hresp, hrne, Bool.false_eq_true, if_false, hph]
  refine ⟨?_, ?_, ?_, ?_, ?_⟩
  · exact hfa.trans rfl
  · exact hfg.trans rfl
  · refine ⟨{ id := (generateMessageId now s.msgCounter).1, type := .user,
              content := s.inputValue, timestamp := now },
            { id := (generateMessageId now
                ((sendMessageToBackend s.inputValue false s.activeStudy s.sessionIdMap
                  (.ok data) (sendMessageOptimistic now active s)).1.msgCounter)).1,
              type := .ai, content := resp, timestamp := now },
            ?_, rfl, rfl, rfl, rfl⟩
    rw [hfm]
    simp [sendMessageOptimistic, generateMessageId]
  · intro k hk
    rw [lookup_setKey_ne _ _ _ _ hk, hfmm]
    show ((sendMessageOptimistic now active s).messagesMap).lookup k = _
    simp only [sendMessageOptimistic]
    rw [lookup_setKey_ne _ _ _ _ hk]
  · intro k hk
    exact sendMessageToBackend_sessions_other s.inputValue false s.activeStudy
      s.sessionIdMap (.ok data) (sendMessageOptimistic now active s) k
      (fun st hst => by rw [hA] at hst; cases hst; exact hk)

/-- Claim C2: a successful sendMessage exchange whose response reports the
tutoring phase ('feynman_tutoring') sets the active study's progress to
min(progress+10, 100), increments questionsAnswered, updates lastActive
to the exchange time, and this updated record replaces every copy with
the same id inside the study groups (so the group copy is structurally
identical); progress does not decrease and never exceeds 100 (given the
invariant progress ≤ 100, which holds initially and is preserved). -/
theorem C2_sendMessage_tutoring_progress (now : Nat) (s : AppState)
    (active : Study) (data : ChatResponse) (resp : String)
    (hA : s.activeStudy = some active) (hin : trimStr s.inputValue ≠ "")
    (hresp : data.response = some resp) (hne : resp ≠ "")
    (hph : data.phase = some "feynman_tutoring")
    (hp : active.progress ≤ 100)
    (g : StudyGroup) (hg : g ∈ s.studyGroups) (hmem : active ∈ g.studies) :
    ∃ st' : Study,
      (sendMessage now (.ok data) s).1.activeStudy = some st' ∧
      st'.progress = min (active.progress + 10) 100 ∧
      st'.questionsAnswered = active.questionsAnswered + 1 ∧
      st'.lastActive = now ∧
      active.progress ≤ st'.progress ∧ st'.progress ≤ 100 ∧
      st'.id = active.id ∧ st'.title = active.title ∧
      st'.subject = active.subject ∧ st'.difficulty = active.difficulty ∧
      (∃ g' ∈ (sendMessage now (.ok data) s).1.studyGroups, st' ∈ g'.studies) ∧
      (∀ g' ∈ (sendMessage now (.ok data) s).1.studyGroups,
        ∀ st ∈ g'.studies, st.id = active.id → st = st') := by
  have hb : (trimStr s.inputValue == "") = false := beq_eq_false_iff_ne.mpr hin
  have hrne : (resp == "") = false := beq_eq_false_iff_ne.mpr hne
  rw [sendMessage_active_eq now _ s active hA hb]
  have hans := sendMessageToBackend_ok_answer s.inputValue false s.activeStudy
    s.sessionIdMap data (sendMessageOptimistic now active s)
  obtain ⟨hfu, hfg, hfa, hfm, hfmm, hfi, hfc, hfcnt, hfinit⟩ :=
    sendMessageToBackend_frame s.inputValue false s.activeStudy
      s.sessionIdMap (.ok data) (sendMessageOptimistic now active s)
  have hgroups : (sendMessageToBackend s.inputValue false s.activeStudy
      s.sessionIdMap (.ok data) (sendMessageOptimistic now active s)).1.studyGroups =
      s.studyGroups := hfg.trans rfl
  rw [hans]
  simp only [sendMessageFinish, hresp, hrne, Bool.false_eq_true, if_false, hph,
    show (("feynman_tutoring" : String) == "") = false by decide,
    show (("feynman_tutoring" : String) == "feynman_tutoring") = true by decide,
    if_true, hgroups]
  refine ⟨_, rfl, rfl, rfl, rfl, ?_, ?_, rfl, rfl, rfl, rfl, ?_, ?_⟩
  · exact Nat.le_min.mpr ⟨Nat.le_add_right _ _, hp⟩
  · exact Nat.min_le_right _ _
  · refine ⟨_, List.mem_map_of_mem _ hg, ?_⟩
    have := List.mem_map_of_mem
      (fun st => if st.id == active.id then
        { active with lastActive := now
                      questionsAnswered := active.questionsAnswered + 1
                      progress := min (active.progress + 10) 100 } else st) hmem
    simpa using this
  · intro g' hg' st hst hid
    obtain ⟨g0, hg0, rfl⟩ := List.mem_map.mp hg'
    obtain ⟨x, hx, rfl⟩ := List.mem_map.mp hst
    cases hxa : (x.id == active.id) with
    | true => simp [hxa]
    | false =>
      rw [if_neg (by simp [hxa])] at hid ⊢
      exact absurd hid (beq_eq_false_iff_ne.mp hxa)

/-- Witness for C2: a concrete tutoring-phase exchange takes progress
from 20 to 30 and questionsAnswered from 2 to 3. -/
theorem C2_witness :
    ∃ st' : Study,
      (sendMessage 200 (.ok ⟨some "Good!", none, some "feynman_tutoring"⟩)
        demoState).1.activeStudy = some st' ∧
      st'.progress = 30 ∧ st'.questionsAnswered = 3 ∧ st'.lastActive = 200 := by
  obtain ⟨st', h1, h2, h3, h4, -⟩ :=
    C2_sendMessage_tutoring_progress 200 demoState demoStudy
      ⟨some "Good!", none, some "feynman_tutoring"⟩ "Good!" rfl (by decide)
      rfl (by decide) rfl (by decide) demoGroup (by decide) (by decide)
  exact ⟨st', h1, by rw [h2]; decide, h3, h4⟩

/-- Witness for C3: a concrete failing exchange grows the message list
by exactly two. -/
theorem C3_witness :
    (sendMessage 200 .fail demoState).1.messages.length =
      demoState.messages.length + 2 := by
  obtain ⟨u, f, h1, h2, -⟩ :=
    C3_sendMessage_failure_fallback 200 demoState demoStudy rfl (by decide)
  exact h2

/-- Witness for C9: a concrete phase-free successful exchange leaves the
active study record and the groups unchanged. -/
theorem C9_witness :
    (sendMessage 300 (.ok ⟨some "Interesting.", some "sess1", none⟩)
      demoState).1.activeStudy = demoState.activeStudy ∧
    (sendMessage 300 (.ok ⟨some "Interesting.", some "sess1", none⟩)
      demoState).1.studyGroups = demoState.studyGroups := by
  obtain ⟨h1, h2, -⟩ :=
    C9_sendMessage_no_phase_frame 300 demoState demoStudy
      ⟨some "Interesting.", some "sess1", none⟩ "Interesting." rfl (by decide)
      rfl (by decide) rfl
  exact ⟨h1, h2⟩

theorem sendMessage_req_tokenless (now : Nat) (br : BackendResult)
    (s : AppState) (active : Study) (hA : s.activeStudy = some active)
    (hT : s.sessionIdMap.lookup active.id = none) :
    ∀ req ∈ (sendMessage now br s).2, req.session_id = none := by
  intro req hreq
  by_cases hin : (trimStr s.inputValue == "") = true
  · simp [sendMessage, hin] at hreq
  · rw [sendMessage_active_eq now br s active hA (by simpa using hin)] at hreq
    simp only [List.mem_singleton] at hreq
    subst hreq
    unfold sendMessageToBackend
    cases br with
    | fail => simp [hA, hT]
    | ok data =>
      obtain ⟨resp, sid, ph⟩ := data
      cases sid <;> simp [hA, hT] <;> split <;> simp

/-- Claim C7: when the initial exchange of startNewStudy fails, the new
study's message list becomes exactly one AI message carrying the
deterministic fallback text beginning 'Great! Let's start learning
about "{title}"', the study is not marked failed (it remains the active
study), the session-token map is unchanged so no token is recorded for
it, and any following sendMessage for that study issues a tokenless
request. -/
theorem C7_startNewStudy_failure (topic : String) (now : Nat) (s : AppState)
    (u : AppUser) (hu : s.user = some u)
    (hfresh : s.sessionIdMap.lookup (toString now) = none) :
    (startNewStudy topic now .fail s).1.activeStudy = some (mkStudy topic now) ∧
    (∃ fb : Message,
      (startNewStudy topic now .fail s).1.messages = [fb] ∧ fb.type = .ai ∧
      fb.content = "Great! Let's start learning about \"" ++ topic ++
        "\". I'll use the Feynman Technique to help you master this concept. Can you begin by explaining what you already know about this topic in simple terms?") ∧
    (startNewStudy topic now .fail s).1.sessionIdMap = s.sessionIdMap ∧
    (startNewStudy topic now .fail s).1.sessionIdMap.lookup
      (mkStudy topic now).id = none ∧
    (∀ now2 br2 req,
      req ∈ (sendMessage now2 br2 (startNewStudy topic now .fail s).1).2 →
      req.session_id = none) := by
  have hmain : (startNewStudy topic now .fail s).1.activeStudy =
        some (mkStudy topic now) ∧
      (startNewStudy topic now .fail s).1.messages =
        [{ id := "msg_" ++ toString now ++ "_" ++ toString (s.msgCounter + 1)
           type := .ai
           content := "Great! Let's start learning about \"" ++ topic ++
             "\". I'll use the Feynman Technique to help you master this concept. Can you begin by explaining what you already know about this topic in simple terms?"
           timestamp := now }] ∧
      (startNewStudy topic now .fail s).1.sessionIdMap = s.sessionIdMap := by
    cases hact : s.activeStudy <;>
      simp [startNewStudy, hu, hact, sendMessageToBackend, startNewStudyFinish,
        generateMessageId]
  obtain ⟨h1, h2, h3⟩ := hmain
  have h4 : (startNewStudy topic now .fail s).1.sessionIdMap.lookup
      (mkStudy topic now).id = none := by rw [h3]; exact hfresh
  exact ⟨h1, ⟨_, h2, rfl, rfl⟩, h3, h4,
    fun now2 br2 req hreq =>
      sendMessage_req_tokenless now2 br2 _ (mkStudy topic now) h1 h4 req hreq⟩

/-- Witness for C7: concrete failing start for "Calculus" in demoState;
the resulting messages are the single fallback and the session map stays
empty. -/
theorem C7_witness :
    (startNewStudy "Calculus" 400 .fail demoState).1.activeStudy =
      some (mkStudy "Calculus" 400) ∧
    (startNewStudy "Calculus" 400 .fail demoState).1.sessionIdMap =
      demoState.sessionIdMap := by
  obtain ⟨h1, -, h3, -⟩ :=
    C7_startNewStudy_failure "Calculus" 400 demoState demoUser rfl rfl
  exact ⟨h1, h3⟩

/-- Counterexample to claim C4 as stated: `ghostStudy` has no session
token and no cached messages (its map entry is absent), yet switchTo
issues no initialization exchange, because the guard
`messagesMap[id]?.length === 0` is false for an absent entry. -/
theorem C4_counterexample :
    falsyToken (ghostState.sessionIdMap.lookup ghostStudy.id) = true ∧
    ghostState.messagesMap.lookup ghostStudy.id = none ∧
    (switchToStudy ghostStudy 501
      (.ok ⟨some "Welcome back!", some "sess9", none⟩) ghostState).2 = [] := by
  refine ⟨rfl, rfl, ?_⟩
  decide

/-- Claim C4 (amended): switchTo triggers the continueStudySession
initialization exchange — a forced-new-session request (session token
null) with seed text "I want to continue learning about {title}" —
exactly when the target has no (truthy) session token AND its cached
message entry exists and is the empty list; with a token, a non-empty
cache, or no cache entry at all, no exchange is issued. -/
theorem C4_switchTo_init_guard (study : Study) (now : Nat)
    (br : BackendResult) (s : AppState) :
    (falsyToken (s.sessionIdMap.lookup study.id) = true →
      s.messagesMap.lookup study.id = some [] →
      (switchToStudy study now br s).2 =
        [{ message := "I want to continue learning about " ++ study.title
           session_id := none }]) ∧
    ((falsyToken (s.sessionIdMap.lookup study.id) = false ∨
        isEmptyEntry (s.messagesMap.lookup study.id) = false) →
      (switchToStudy study now br s).2 = []) := by
  constructor
  · intro h1 h2
    unfold switchToStudy continueStudySession
    simp only [h1, h2, isEmptyEntry, Bool.and_self, if_true]
    rw [sendMessageToBackend_req_forceNew]
  · intro h
    unfold switchToStudy
    have hg : (falsyToken (s.sessionIdMap.lookup study.id) &&
        isEmptyEntry (s.messagesMap.lookup study.id)) = false := by
      cases h with
      | inl h => simp [h]
      | inr h => simp [h]
    simp only [hg, Bool.false_eq_true, if_false]

/-- Witness for C4: the guard fires on an empty cached entry without a
token (issuing exactly the forced-new continue request), and does not
fire for a study with a non-empty cache. -/
theorem C4_witness :
    (switchToStudy ghostStudy 501
      (.ok ⟨some "Welcome back!", some "sess9", none⟩) emptyCacheState).2 =
      [{ message := "I want to continue learning about Thermodynamics"
         session_id := none }] ∧
    (switchToStudy demoStudy 501 .fail demoState).2 = [] := by
  constructor
  · exact (C4_switchTo_init_guard ghostStudy 501 _ emptyCacheState).1 rfl rfl
  · exact (C4_switchTo_init_guard demoStudy 501 .fail demoState).2
      (Or.inr (by decide))

/-- Claim C8 evaluated on the code: the first sidebar click on
`pendingStudy` starts an initialization exchange and commits
`isInitializingStudy = true`; a second click on the same study while
that exchange is still in flight issues a second request for the same
study, because neither `switchToStudy` nor `continueStudySession`
consults `isLoading`/`isInitializingStudy` and the sidebar entries are
never disabled.  This contradicts the claim that the in-flight state
gates re-entrant calls. -/
theorem C8_code_evaluation :
    (switchToStudyStart pendingStudy pendingState).2.length = 1 ∧
    ((switchToStudyStart pendingStudy pendingState).1).isInitializingStudy = true ∧
    (switchToStudyStart pendingStudy
      ((switchToStudyStart pendingStudy pendingState).1)).2.length = 1 := by
  refine ⟨?_, ?_, ?_⟩ <;> decide

theorem continueStudySession_frame (study : Study) (now : Nat)
    (br : BackendResult) (s0 s : AppState) :
    (continueStudySession study now br s0 s).1.activeStudy = s.activeStudy ∧
    (∀ x, x ≠ study.id →
      (continueStudySession study now br s0 s).1.messagesMap.lookup x =
        s.messagesMap.lookup x) := by
  unfold continueStudySession
  by_cases hg : (falsyToken (s0.sessionIdMap.lookup study.id) &&
      isEmptyEntry (s0.messagesMap.lookup study.id)) = true
  · simp only [hg, if_true]
    constructor
    · cases br with
      | fail => simp [sendMessageToBackend, continueStudySessionFinish]
      | ok data =>
        obtain ⟨resp, sid, ph⟩ := data
        cases resp <;> cases sid <;> cases hs0 : s0.activeStudy <;>
          simp [sendMessageToBackend, continueStudySessionFinish, hs0] <;>
          (try split) <;> (try split) <;> simp
    · intro x hx
      cases br with
      | fail => simp [sendMessageToBackend, continueStudySessionFinish]
      | ok data =>
        obtain ⟨resp, sid, ph⟩ := data
        cases resp <;> cases sid <;> cases hs0 : s0.activeStudy <;>
          simp [sendMessageToBackend, continueStudySessionFinish, hs0] <;>
          (try split) <;> (try split) <;>
          simp [lookup_setKey_ne _ _ _ _ hx]
  · simp only [Bool.not_eq_true] at hg
    simp [hg]

/-- Claim C1 (amended): for an active study A with a NON-EMPTY message
list, switching to a different study B and back to A restores exactly
the previous message list (the flush into the per-study map before each
switch and the reload of the target's cached entry preserve it); with an
empty list the switch back can instead trigger session initialization,
see the counterexample. -/
theorem C1_switch_round_trip (s : AppState) (A B : Study)
    (now1 now2 : Nat) (br1 br2 : BackendResult)
    (hA : s.activeStudy = some A) (hne : A.id ≠ B.id)
    (hM : s.messages ≠ []) :
    ((switchToStudy A now2 br2 ((switchToStudy B now1 br1 s).1)).1).messages =
      s.messages ∧
    ((switchToStudy A now2 br2 ((switchToStudy B now1 br1 s).1)).1).activeStudy =
      some A := by
  have key : ((switchToStudy B now1 br1 s).1).messagesMap.lookup A.id =
      some s.messages ∧
      ((switchToStudy B now1 br1 s).1).activeStudy = some B := by
    unfold switchToStudy
    simp only [hA]
    by_cases hg : (falsyToken (s.sessionIdMap.lookup B.id) &&
        isEmptyEntry (s.messagesMap.lookup B.id)) = true
    · simp only [hg, if_true]
      obtain ⟨hca, hmm⟩ := continueStudySession_frame B now1 br1 s _
      constructor
      · rw [hmm A.id hne]
        exact lookup_setKey_self _ _ _
      · rw [hca]
    · simp only [Bool.not_eq_true] at hg
      simp only [hg, Bool.false_eq_true, if_false]
      exact ⟨lookup_setKey_self _ _ _, trivial⟩
  obtain ⟨f1, f2⟩ := key
  have hEmpty : isEmptyEntry (some s.messages) = false := by
    cases hm : s.messages with
    | nil => exact absurd hm hM
    | cons a l => rfl
  generalize hs1 : (switchToStudy B now1 br1 s).1 = s1 at f1 f2
  unfold switchToStudy
  simp only [f2, f1, hEmpty, Bool.and_false, Bool.false_eq_true, if_false,
    Option.getD_some]
  constructor <;> first
    | rfl
    | trivial

/-- Counterexample to claim C1 as universally stated: with A active and
message sequence M = [], switching to B and back does NOT restore M —
the switch back finds an empty tokenless cache entry (created by the
flush) and triggers session initialization, which replaces the empty
list with the seed AI reply. -/
theorem C1_counterexample :
    roundTripState.activeStudy = some studyA1 ∧
    studyA1.id ≠ studyB1.id ∧
    ((switchToStudy studyA1 11 (.ok ⟨some "Welcome back", some "sessX", none⟩)
        ((switchToStudy studyB1 10 .fail roundTripState).1)).1).messages ≠
      roundTripState.messages := by
  refine ⟨rfl, by decide, by decide⟩

/-- Witness for C1: concrete round trip away from `demoStudy` (non-empty
message list) and back restores its messages. -/
theorem C1_witness :
    ((switchToStudy demoStudy 11 .fail
        ((switchToStudy studyB1 10 .fail demoState).1)).1).messages =
      demoState.messages := by
  obtain ⟨h1, -⟩ := C1_switch_round_trip demoState demoStudy studyB1 10 11
    .fail .fail rfl (by decide) (by decide)
  exact h1

theorem mem_firstOccs (l : List String) (x : String) :
    x ∈ firstOccs l ↔ x ∈ l := by
  induction l with
  | nil => simp [firstOccs]
  | cons a l ih =>
    simp only [firstOccs, List.mem_cons, List.mem_filter]
    constructor
    · rintro (rfl | ⟨hx, -⟩)
      · exact Or.inl rfl
      · exact Or.inr (ih.mp hx)
    · rintro (rfl | hx)
      · exact Or.inl rfl
      · by_cases hax : x = a
        · exact Or.inl hax
        · exact Or.inr ⟨ih.mpr hx, by simp [hax]⟩

theorem firstOccs_nodup (l : List String) : (firstOccs l).Nodup := by
  induction l with
  | nil => simp [firstOccs]
  | cons a l ih =>
    simp only [firstOccs, List.nodup_cons]
    refine ⟨fun hmem => ?_, List.Nodup.filter _ ih⟩
    have := (List.mem_filter.mp hmem).2
    simp at this

theorem firstOccs_append_singleton (l : List String) (x : String) :
    firstOccs (l ++ [x]) =
      if x ∈ l then firstOccs l else firstOccs l ++ [x] := by
  induction l with
  | nil => simp [firstOccs]
  | cons a l ih =>
    show a :: List.filter (fun y => !(y == a)) (firstOccs (l ++ [x])) = _
    rw [ih]
    by_cases hxl : x ∈ l
    · rw [if_pos hxl, if_pos (List.mem_cons_of_mem a hxl)]
      rfl
    · rw [if_neg hxl, List.filter_append]
      by_cases hxa : x = a
      · subst hxa
        rw [if_pos (List.mem_cons_self x l)]
        simp [firstOccs]
      · rw [if_neg (by simp [hxa, hxl])]
        simp [firstOccs, beq_eq_false_iff_ne.mpr hxa]

theorem addToGroup_eq_none (st : Study) (gs : List StudyGroup) :
    addToGroup st gs = none ↔ ∀ g ∈ gs, g.name ≠ st.subject := by
  induction gs with
  | nil => simp [addToGroup]
  | cons g gs ih =>
    by_cases hg : (g.name == st.subject) = true
    · simp [addToGroup, hg, beq_iff_eq.mp hg]
    · have hg' : g.name ≠ st.subject := by
        intro he
        rw [beq_iff_eq.mpr he] at hg
        exact hg rfl
      simp only [addToGroup, hg, Bool.false_eq_true, if_false,
        Option.map_eq_none', ih, List.mem_cons]
      constructor
      · intro h x hx
        cases hx with
        | inl he => rw [he]; exact hg'
        | inr hx2 => exact h x hx2
      · intro h x hx
        exact h x (Or.inr hx)

theorem addToGroup_names (st : Study) :
    ∀ gs gs2, addToGroup st gs = some gs2 →
      gs2.map (fun g => g.name) = gs.map (fun g => g.name) := by
  intro gs
  induction gs with
  | nil => intro gs2 h; cases h
  | cons g gs ih =>
    intro gs2 h
    by_cases hg : (g.name == st.subject) = true
    · simp only [addToGroup, hg, if_true, Option.some_inj] at h
      rw [← h]
      simp
    · simp only [addToGroup, hg, Bool.false_eq_true, if_false,
        Option.map_eq_some'] at h
      obtain ⟨gs2', h1, rfl⟩ := h
      simp [ih gs2' h1]

theorem addToGroup_mem (st : Study) :
    ∀ gs gs2, (gs.map (fun g => g.name)).Nodup →
      addToGroup st gs = some gs2 →
      ∀ g' ∈ gs2,
        (g' ∈ gs ∧ g'.name ≠ st.subject) ∨
        (∃ g ∈ gs, g.name = st.subject ∧
          g' = { g with studies := st :: g.studies }) := by
  intro gs
  induction gs with
  | nil => intro gs2 _ h; cases h
  | cons g gs ih =>
    intro gs2 hnodup h g' hg'
    rw [List.map_cons, List.nodup_cons] at hnodup
    by_cases hg : (g.name == st.subject) = true
    · simp only [addToGroup, hg, if_true, Option.some_inj] at h
      subst h
      cases List.mem_cons.mp hg' with
      | inl he =>
        exact Or.inr ⟨g, List.mem_cons_self g gs, beq_iff_eq.mp hg, he⟩
      | inr hmem =>
        refine Or.inl ⟨List.mem_cons_of_mem g hmem, fun hcontra => ?_⟩
        refine hnodup.1 ?_
        have hnm : g.name = g'.name := by rw [hcontra, beq_iff_eq.mp hg]
        rw [hnm]
        exact List.mem_map_of_mem (fun g => g.name) hmem
    · simp only [addToGroup, hg, Bool.false_eq_true, if_false,
        Option.map_eq_some'] at h
      obtain ⟨gs2', h1, rfl⟩ := h
      cases List.mem_cons.mp hg' with
      | inl he =>
        subst he
        refine Or.inl ⟨List.mem_cons_self g' gs, fun hcontra => ?_⟩
        rw [beq_iff_eq.mpr hcontra] at hg
        exact hg rfl
      | inr hmem =>
        cases ih gs2' hnodup.2 h1 g' hmem with
        | inl hl => exact Or.inl ⟨List.mem_cons_of_mem g hl.1, hl.2⟩
        | inr hr =>
          obtain ⟨g0, hg0, hname, heq⟩ := hr
          exact Or.inr ⟨g0, List.mem_cons_of_mem g hg0, hname, heq⟩

theorem addToGroup_flatMap (st : Study) :
    ∀ gs gs2, addToGroup st gs = some gs2 →
      List.Perm (gs2.flatMap (fun g => g.studies))
        (st :: gs.flatMap (fun g => g.studies)) := by
  intro gs
  induction gs with
  | nil => intro gs2 h; cases h
  | cons g gs ih =>
    intro gs2 h
    by_cases hg : (g.name == st.subject) = true
    · simp only [addToGroup, hg, if_true, Option.some_inj] at h
      subst h
      simp [List.flatMap_cons]
    · simp only [addToGroup, hg, Bool.false_eq_true, if_false,
        Option.map_eq_some'] at h
      obtain ⟨gs2', h1, rfl⟩ := h
      rw [List.flatMap_cons, List.flatMap_cons]
      exact (List.Perm.append_left g.studies (ih gs2' h1)).trans
        List.perm_middle

theorem insertStudy_flatMap (st : Study) (gs : List StudyGroup) :
    List.Perm ((insertStudy st gs).flatMap (fun g => g.studies))
      (st :: gs.flatMap (fun g => g.studies)) := by
  unfold insertStudy
  cases h : addToGroup st gs with
  | some gs2 => exact addToGroup_flatMap st gs gs2 h
  | none => simp [mkGroup, List.flatMap_cons]

theorem GroupsInv_nil : GroupsInv [] [] := ⟨rfl, by simp⟩

theorem GroupsInv_insert (created : List Study) (gs : List StudyGroup)
    (st : Study) (h : GroupsInv created gs) :
    GroupsInv (created ++ [st]) (insertStudy st gs) := by
  obtain ⟨hnames, hstudies⟩ := h
  have hnodup : (gs.map (fun g => g.name)).Nodup := by
    rw [hnames]; exact List.nodup_reverse.mpr (firstOccs_nodup _)
  have hfo : firstOccs ((created ++ [st]).map (fun x => x.subject)) =
      if st.subject ∈ created.map (fun x => x.subject) then
        firstOccs (created.map (fun x => x.subject))
      else firstOccs (created.map (fun x => x.subject)) ++ [st.subject] := by
    rw [List.map_append]
    exact firstOccs_append_singleton _ _
  have hmemiff : (st.subject ∈ gs.map (fun g => g.name)) ↔
      st.subject ∈ created.map (fun x => x.subject) := by
    rw [hnames, List.mem_reverse, mem_firstOccs]
  unfold insertStudy
  cases hadd : addToGroup st gs with
  | none =>
    have hnotin : ∀ g ∈ gs, g.name ≠ st.subject :=
      (addToGroup_eq_none st gs).mp hadd
    have hsubj : st.subject ∉ created.map (fun x => x.subject) := by
      rw [← hmemiff]
      intro hmem
      obtain ⟨g, hgmem, hgeq⟩ := List.mem_map.mp hmem
      exact hnotin g hgmem hgeq
    constructor
    · rw [List.map_cons, hnames, hfo, if_neg hsubj, List.reverse_append]
      rfl
    · intro g' hg'
      cases List.mem_cons.mp hg' with
      | inl he =>
        subst he
        have hfilter : created.filter (fun x => x.subject == st.subject) = [] := by
          rw [List.filter_eq_nil_iff]
          intro x hx hbeq
          refine hsubj ?_
          rw [← beq_iff_eq.mp hbeq]
          exact List.mem_map_of_mem _ hx
        show [st] = _
        rw [show (mkGroup st).name = st.subject from rfl, List.filter_append,
          hfilter]
        simp
      | inr hmem =>
        rw [hstudies g' hmem, List.filter_append]
        have hne : st.subject ≠ g'.name := by
          intro he
          exact hnotin g' hmem he.symm
        simp [beq_eq_false_iff_ne.mpr hne]
  | some gs2 =>
    have hsubj : st.subject ∈ created.map (fun x => x.subject) := by
      rw [← hmemiff]
      by_contra hni
      have hall : ∀ g ∈ gs, g.name ≠ st.subject := by
        intro g hgmem he
        exact hni (he ▸ List.mem_map_of_mem (fun g => g.name) hgmem)
      rw [(addToGroup_eq_none st gs).mpr hall] at hadd
      cases hadd
    constructor
    · rw [addToGroup_names st gs gs2 hadd, hnames, hfo, if_pos hsubj]
    · intro g' hg'
      cases addToGroup_mem st gs gs2 hnodup hadd g' hg' with
      | inl hl =>
        obtain ⟨hmem, hne⟩ := hl
        rw [hstudies g' hmem, List.filter_append]
        simp [beq_eq_false_iff_ne.mpr (fun he : st.subject = g'.name => hne he.symm)]
      | inr hr =>
        obtain ⟨g0, hg0, hname0, heq⟩ := hr
        subst heq
        show st :: g0.studies = _
        rw [hstudies g0 hg0, List.filter_append,
          show ({ g0 with studies := st :: g0.studies } : StudyGroup).name = g0.name from rfl]
        have hbeq : (st.subject == g0.name) = true := beq_iff_eq.mpr hname0.symm
        simp [hbeq, List.reverse_append]

theorem buildGroups_append_singleton (sts : List Study) (st : Study) :
    buildGroups (sts ++ [st]) = insertStudy st (buildGroups sts) := by
  unfold buildGroups
  rw [List.foldl_append]
  rfl

theorem buildGroups_inv (sts : List Study) :
    GroupsInv sts (buildGroups sts) := by
  induction sts using List.reverseRecOn with
  | nil => exact GroupsInv_nil
  | append_singleton l st ih =>
    rw [buildGroups_append_singleton]
    exact GroupsInv_insert l _ st ih

theorem buildGroups_flatMap (sts : List Study) :
    List.Perm ((buildGroups sts).flatMap (fun g => g.studies)) sts := by
  induction sts using List.reverseRecOn with
  | nil => simp [buildGroups]
  | append_singleton l st ih =>
    rw [buildGroups_append_singleton]
    exact (insertStudy_flatMap st _).trans
      ((ih.cons st).trans (List.perm_append_singleton st l).symm)

theorem startNewStudy_groups (topic : String) (now : Nat) (br : BackendResult)
    (s : AppState) (u : AppUser) (hu : s.user = some u) :
    ((startNewStudy topic now br s).1).studyGroups =
      insertStudy (mkStudy topic now) s.studyGroups ∧
    ((startNewStudy topic now br s).1).user = s.user := by
  cases hact : s.activeStudy <;>
  · cases br with
    | fail =>
      simp [startNewStudy, hu, hact, sendMessageToBackend, startNewStudyFinish]
    | ok data =>
      obtain ⟨resp, sid, ph⟩ := data
      cases resp <;> cases sid <;>
        simp [startNewStudy, hu, hact, sendMessageToBackend,
          startNewStudyFinish] <;>
        (try split) <;> (try split) <;> simp

theorem runStarts_groups (calls : List StartCall) (s : AppState)
    (u : AppUser) (hu : s.user = some u) :
    (runStarts calls s).studyGroups =
      calls.foldl (fun gs c => insertStudy (mkStudy c.topic c.now) gs)
        s.studyGroups ∧
    (runStarts calls s).user = s.user := by
  induction calls generalizing s with
  | nil => exact ⟨rfl, rfl⟩
  | cons c cs ih =>
    obtain ⟨hg, hu2⟩ := startNewStudy_groups c.topic c.now c.br s u hu
    obtain ⟨ihg, ihu⟩ := ih (startNewStudy c.topic c.now c.br s).1
      (hu2.trans hu)
    refine ⟨?_, ihu.trans hu2⟩
    show (runStarts cs (startNewStudy c.topic c.now c.br s).1).studyGroups = _
    rw [ihg, hg]
    rfl

/-- Claim C6: after any sequence of startNewStudy calls starting from a
logged-in state with an empty directory, the study groups partition all
created studies by subject with none duplicated or missing (the
concatenation over all groups is a permutation of the created studies,
and every group's list is exactly the created studies of its subject),
group names are pairwise distinct, studies appear newest-first within
their group (each new study is prepended), and groups are ordered with
the most recently introduced subject first (a new subject's group is
prepended). -/
theorem C6_startNewStudy_grouping (calls : List StartCall) (s : AppState)
    (u : AppUser) (hu : s.user = some u) (hg0 : s.studyGroups = []) :
    (∀ g ∈ (runStarts calls s).studyGroups, ∀ st ∈ g.studies,
      st.subject = g.name) ∧
    ((runStarts calls s).studyGroups.map (fun g => g.name)).Nodup ∧
    List.Perm ((runStarts calls s).studyGroups.flatMap (fun g => g.studies))
      (calls.map (fun c => mkStudy c.topic c.now)) ∧
    (∀ g ∈ (runStarts calls s).studyGroups, g.studies =
      ((calls.map (fun c => mkStudy c.topic c.now)).filter
        (fun st => st.subject == g.name)).reverse) ∧
    (runStarts calls s).studyGroups.map (fun g => g.name) =
      (firstOccs ((calls.map (fun c => mkStudy c.topic c.now)).map
        (fun st => st.subject))).reverse := by
  have hgs : (runStarts calls s).studyGroups =
      buildGroups (calls.map (fun c => mkStudy c.topic c.now)) := by
    rw [(runStarts_groups calls s u hu).1, hg0]
    unfold buildGroups
    rw [List.foldl_map]
  obtain ⟨hnames, hstudies⟩ := buildGroups_inv
    (calls.map (fun c => mkStudy c.topic c.now))
  rw [hgs]
  refine ⟨?_, ?_, buildGroups_flatMap _, hstudies, hnames⟩
  · intro g hg st hst
    rw [hstudies g hg, List.mem_reverse] at hst
    exact beq_iff_eq.mp (List.mem_filter.mp hst).2
  · rw [hnames]
    exact List.nodup_reverse.mpr (firstOccs_nodup _)

/-- Witness for C6: three concrete starts (Physics, Biology, Physics)
produce the directory [Biology, Physics] with each group holding only
its own subject's studies. -/
theorem C6_witness :
    (runStarts [⟨"Quantum Physics", 1, .fail⟩, ⟨"Cell Biology", 2, .fail⟩,
        ⟨"Thermodynamics", 3, .fail⟩] freshState).studyGroups.map
      (fun g => g.name) = ["Biology", "Physics"] ∧
    (∀ g ∈ (runStarts [⟨"Quantum Physics", 1, .fail⟩,
        ⟨"Cell Biology", 2, .fail⟩, ⟨"Thermodynamics", 3, .fail⟩]
          freshState).studyGroups,
      ∀ st ∈ g.studies, st.subject = g.name) := by
  have h := C6_startNewStudy_grouping
    [⟨"Quantum Physics", 1, .fail⟩, ⟨"Cell Biology", 2, .fail⟩,
     ⟨"Thermodynamics", 3, .fail⟩] freshState demoUser rfl rfl
  refine ⟨?_, h.1⟩
  rw [h.2.2.2.2]
  decide
